import Mathlib

/-!
Verification of the synthetic-student-data generator
(`generador_datos_sinteticos.py`).  The repair pipeline, the stress-label
rule, the categorical decode, the chunked generation loop and the identifier
assignment are embedded as executable Lean definitions over `ℚ`, `ℤ` and
`ℕ`, and the spec's testable properties are proved about them.
-/

namespace StudyBalance

/-- A sampled row's four time-independent hour values, in source order:
`Study_Hours_Per_Day`, `Extracurricular_Hours_Per_Day`,
`Sleep_Hours_Per_Day`, `Social_Hours_Per_Day` (lines 26-31). -/
structure TimeIn where
  study : ℚ
  extra : ℚ
  sleep : ℚ
  social : ℚ
deriving DecidableEq, Repr

/-- The five time fields after the residual `Physical_Activity_Hours_Per_Day`
has been filled in. -/
structure TimeFull where
  study : ℚ
  extra : ℚ
  sleep : ℚ
  social : ℚ
  physical : ℚ
deriving DecidableEq, Repr

/-- Stage a of the time repair: `df_chunk[col].clip(lower=0)` applied to each
of the four time-independent columns (lines 81-82). -/
def clipRow (r : TimeIn) : TimeIn :=
  ⟨max r.study 0, max r.extra 0, max r.sleep 0, max r.social 0⟩

/-- Stage b: `Sum_Hours`, the row-wise sum of the four time-independent
columns (line 85). -/
def sumHours (r : TimeIn) : ℚ :=
  r.study + r.extra + r.sleep + r.social

/-- Stages c and d of the time repair (lines 88-98): on overflow
(`Sum_Hours > 24`) multiply each time-independent value by the factor
`24 / Sum_Hours` and set `Physical_Activity_Hours_Per_Day` to `0`; otherwise
set it to `24 - Sum_Hours`. -/
def repairBranch (r : TimeIn) : TimeFull :=
  let s := sumHours r
  if 24 < s then
    let factor := 24 / s
    ⟨r.study * factor, r.extra * factor, r.sleep * factor, r.social * factor, 0⟩
  else
    ⟨r.study, r.extra, r.sleep, r.social, 24 - s⟩

/-- Round half to even to an integer, the rounding used by
`pandas.Series.round` (numpy semantics). -/
def roundHE (q : ℚ) : ℤ :=
  if q - ⌊q⌋ < 1/2 then ⌊q⌋
  else if 1/2 < q - ⌊q⌋ then ⌊q⌋ + 1
  else if ⌊q⌋ % 2 = 0 then ⌊q⌋ else ⌊q⌋ + 1

/-- Round to one decimal place, the `.round(1)` of line 103. -/
def round1 (q : ℚ) : ℚ :=
  (roundHE (10 * q) : ℚ) / 10

/-- Stage e of the time repair (lines 100-103): round all five time
columns to one decimal place. -/
def roundRow (t : TimeFull) : TimeFull :=
  ⟨round1 t.study, round1 t.extra, round1 t.sleep, round1 t.social,
   round1 t.physical⟩

/-- The whole time-budget repair of one row (lines 81-103):
clip, branch on the sum, round. -/
def repairTime (r : TimeIn) : TimeFull :=
  roundRow (repairBranch (clipRow r))

/-- Sum of the five time fields of a repaired row. -/
def hsum5 (t : TimeFull) : ℚ :=
  t.study + t.extra + t.sleep + t.social + t.physical

/-- Sum of the four time-independent fields of a repaired row. -/
def hsum4 (t : TimeFull) : ℚ :=
  t.study + t.extra + t.sleep + t.social

lemma roundHE_close (q : ℚ) : |(roundHE q : ℚ) - q| ≤ 1/2 := by
  have hle : (⌊q⌋ : ℚ) ≤ q := Int.floor_le q
  have hlt : q < ⌊q⌋ + 1 := Int.lt_floor_add_one q
  unfold roundHE
  by_cases h1 : q - (⌊q⌋ : ℚ) < 1/2
  · simp only [h1, if_true]
    rw [abs_le]
    constructor <;> linarith
  · simp only [h1, if_false]
    by_cases h2 : (1:ℚ)/2 < q - (⌊q⌋ : ℚ)
    · simp only [h2, if_true]
      push_cast
      rw [abs_le]
      constructor <;> linarith
    · simp only [h2, if_false]
      have heq : q - (⌊q⌋ : ℚ) = 1/2 := le_antisymm (not_lt.mp h2) (not_lt.mp h1)
      by_cases h3 : ⌊q⌋ % 2 = 0
      · simp only [h3, if_true]
        rw [abs_le]
        constructor <;> linarith
      · simp only [h3, if_false]
        push_cast
        rw [abs_le]
        constructor <;> linarith

lemma roundHE_nonneg {q : ℚ} (h : 0 ≤ q) : 0 ≤ roundHE q := by
  have hf : 0 ≤ ⌊q⌋ := Int.floor_nonneg.mpr h
  unfold roundHE
  split
  · exact hf
  · split
    · omega
    · split
      · exact hf
      · omega

lemma round1_close (q : ℚ) : |round1 q - q| ≤ 1/20 := by
  have h := roundHE_close (10 * q)
  rw [abs_le] at h
  unfold round1
  rw [abs_le]
  constructor <;> linarith [h.1, h.2]

lemma round1_nonneg {q : ℚ} (h : 0 ≤ q) : 0 ≤ round1 q := by
  unfold round1
  have := roundHE_nonneg (by linarith : (0:ℚ) ≤ 10 * q)
  positivity

lemma clipRow_nonneg (r : TimeIn) :
    0 ≤ (clipRow r).study ∧ 0 ≤ (clipRow r).extra ∧
    0 ≤ (clipRow r).sleep ∧ 0 ≤ (clipRow r).social := by
  refine ⟨?_, ?_, ?_, ?_⟩ <;> simp [clipRow]

lemma sumHours_clip_nonneg (r : TimeIn) : 0 ≤ sumHours (clipRow r) := by
  obtain ⟨h1, h2, h3, h4⟩ := clipRow_nonneg r
  unfold sumHours
  linarith

/-- Before the rounding stage, both repair branches make the five time
fields sum to exactly 24. -/
lemma repairBranch_sum (r : TimeIn) : hsum5 (repairBranch r) = 24 := by
  unfold repairBranch hsum5
  dsimp only
  by_cases h : 24 < sumHours r
  · have hs : sumHours r ≠ 0 := by
      intro h0
      rw [h0] at h
      norm_num at h
    simp only [h, if_true]
    unfold sumHours at hs ⊢
    field_simp
    ring
  · simp only [h, if_false]
    unfold sumHours
    ring

/-- Both repair branches keep the five time fields non-negative, given a
clipped (non-negative) input row. -/
lemma repairBranch_nonneg (r : TimeIn) :
    0 ≤ (repairBranch (clipRow r)).study ∧
    0 ≤ (repairBranch (clipRow r)).extra ∧
    0 ≤ (repairBranch (clipRow r)).sleep ∧
    0 ≤ (repairBranch (clipRow r)).social ∧
    0 ≤ (repairBranch (clipRow r)).physical := by
  obtain ⟨h1, h2, h3, h4⟩ := clipRow_nonneg r
  unfold repairBranch
  by_cases h : 24 < sumHours (clipRow r)
  · have hs : 0 < sumHours (clipRow r) := by linarith
    have hf : 0 ≤ 24 / sumHours (clipRow r) := by positivity
    simp only [h, if_true]
    exact ⟨mul_nonneg h1 hf, mul_nonneg h2 hf, mul_nonneg h3 hf,
           mul_nonneg h4 hf, le_refl 0⟩
  · simp only [h, if_false]
    exact ⟨h1, h2, h3, h4, by linarith [not_lt.mp h]⟩

/-- `np.select(condiciones, opciones, default)`: ordered condition/value
pairs, first true condition wins, default otherwise (line 122). -/
def npSelect : List (Bool × String) → String → String
  | [], d => d
  | (c, v) :: rest, d => if c then v else npSelect rest d

/-- The stress rule exactly as the code builds it (lines 117-122): the
condition list `condiciones` paired with `opciones`, fed to `np.select`
with default `"Moderate"`. -/
def stressCode (sleep study : ℚ) : String :=
  npSelect
    [(decide (sleep < 6) || decide (8 < study), "High"),
     (decide (6 ≤ sleep) && decide (study < 6), "Low")]
    "Moderate"

/-- The derived-label rule as the spec words it (spec section 4.5): ordered
conditions, first match wins, default fallback. -/
def stressSpec (sleep study : ℚ) : String :=
  if sleep < 6 ∨ 8 < study then "High"
  else if 6 ≤ sleep ∧ study < 6 then "Low"
  else "Moderate"

/-- One fully generated row: the repaired-and-rounded time fields plus the
stored `Stress_Level`, which the code computes from the already-repaired
`df_chunk` columns (lines 116-122 run after the rounding of line 103). -/
structure GenRow where
  times : TimeFull
  stress : String
deriving DecidableEq, Repr

/-- Generation of the time fields and stress label of one row
(lines 81-122). -/
def genRow (r : TimeIn) : GenRow :=
  let t := repairTime r
  ⟨t, stressCode t.sleep t.study⟩

/-- Clamp an integer code into `[lo, hi]`: pandas `Series.clip(lo, hi)`
(line 113). -/
def clampInt (x lo hi : ℤ) : ℤ :=
  min (max x lo) hi

/-- The categorical repair of one sampled value (lines 110-114): round the
continuous sample to the nearest integer code, clamp it into
`[0, len(classes_) - 1]`, then `inverse_transform`, i.e. look the code up
in the encoder's class list. -/
def catRepair (classes : List String) (x : ℚ) : String :=
  let code := roundHE x
  let maxIdx : ℤ := (classes.length : ℤ) - 1
  classes.getD (clampInt code 0 maxIdx).toNat ""

/-- The generation loop's row counter (lines 71-73 and 135): starting from
`rows` already generated, repeatedly add
`current_chunk_size = min(CHUNK_SIZE, TARGET_NEW_ROWS - rows_generated)`
while `rows_generated < TARGET_NEW_ROWS`; returns the final
`rows_generated`.  `CHUNK_SIZE > 0` is the configuration constraint that
makes the loop terminate. -/
def runLoop (chunk target : ℕ) (hc : 0 < chunk) (rows : ℕ) : ℕ :=
  if h : rows < target then
    runLoop chunk target hc (rows + min chunk (target - rows))
  else rows
termination_by target - rows
decreasing_by
  have hb : 0 < min chunk (target - rows) := lt_min hc (Nat.sub_pos_of_lt h)
  omega

/-- The identifiers emitted by the generation loop (lines 69 and 125-126):
each batch receives `range(current_id, current_id + current_chunk_size)`
and `current_id` then advances by the batch size. -/
def genIds (chunk target : ℕ) (hc : 0 < chunk) (rows : ℕ) (cur : ℤ) :
    List ℤ :=
  if h : rows < target then
    let b := min chunk (target - rows)
    (List.range b).map (fun i : ℕ => cur + (i : ℤ)) ++
      genIds chunk target hc (rows + b) (cur + (b : ℤ))
  else []
termination_by target - rows
decreasing_by
  have hb : 0 < min chunk (target - rows) := lt_min hc (Nat.sub_pos_of_lt h)
  omega

/-- How far the run gets when the seed schema misses columns. -/
inductive SetupOutcome where
  /-- A `KeyError` is raised while computing `mu` (line 55), before the
  seed is written to the output file (line 61). -/
  | errorBeforeOutput : SetupOutcome
  /-- A `KeyError` is raised at `df_seed['Student_ID'].max()` (line 69),
  after the seed has been written to the output file (line 61). -/
  | errorAfterOutput : SetupOutcome
  /-- No error: the run reaches the generation loop (line 71). -/
  | proceedsToLoop : SetupOutcome
deriving DecidableEq, Repr

/-- The four hard-coded time-independent column names (lines 26-31). -/
def timeVarsIndependent : List String :=
  ["Study_Hours_Per_Day", "Extracurricular_Hours_Per_Day",
   "Sleep_Hours_Per_Day", "Social_Hours_Per_Day"]

/-- The pre-loop setup (lines 21-69) abstracted to column presence.
`cols_a_modelar` always contains the four hard-coded time columns, so
`df_proc[cols_a_modelar].mean()` (line 55) raises before the seed is
written (line 61) exactly when one of them is missing; `Student_ID` is
first touched at line 69, after the write; a missing `Stress_Level` is
skipped by the conditional removal at line 41 and never raises. -/
def setup (seedCols : List String) : SetupOutcome :=
  if ¬ timeVarsIndependent.all (fun c => seedCols.contains c) then
    .errorBeforeOutput
  else if ¬ seedCols.contains "Student_ID" then
    .errorAfterOutput
  else
    .proceedsToLoop

lemma stressCode_eq_stressSpec (sleep study : ℚ) :
    stressCode sleep study = stressSpec sleep study := by
  unfold stressCode stressSpec
  by_cases h1 : sleep < 6 ∨ 8 < study
  · simp [npSelect, h1]
  · by_cases h2 : 6 ≤ sleep ∧ study < 6
    · simp [npSelect, h1, h2]
    · simp [npSelect, h1, h2]

lemma runLoop_eq_target_aux (chunk target : ℕ) (hc : 0 < chunk) :
    ∀ n rows, target - rows ≤ n → rows ≤ target →
      runLoop chunk target hc rows = target := by
  intro n
  induction n with
  | zero =>
    intro rows h0 hr
    rw [runLoop]
    have hnot : ¬ rows < target := by omega
    simp only [hnot, dif_neg, not_false_iff]
    omega
  | succ n ih =>
    intro rows hn hr
    rw [runLoop]
    split
    · next h =>
      have hb : 0 < min chunk (target - rows) := lt_min hc (Nat.sub_pos_of_lt h)
      have hb2 : min chunk (target - rows) ≤ target - rows := min_le_right _ _
      exact ih _ (by omega) (by omega)
    · next h => omega

lemma genIds_eq_range_aux (chunk target : ℕ) (hc : 0 < chunk) :
    ∀ n rows cur, target - rows ≤ n → rows ≤ target →
      genIds chunk target hc rows cur =
        (List.range (target - rows)).map (fun i : ℕ => cur + (i : ℤ)) := by
  intro n
  induction n with
  | zero =>
    intro rows cur h0 hr
    rw [genIds]
    have hnot : ¬ rows < target := by omega
    have hz : target - rows = 0 := by omega
    simp [hnot, hz]
  | succ n ih =>
    intro rows cur hn hr
    rw [genIds]
    split
    · next h =>
      dsimp only
      set b := min chunk (target - rows) with hbdef
      have hb : 0 < b := lt_min hc (Nat.sub_pos_of_lt h)
      have hb2 : b ≤ target - rows := min_le_right _ _
      rw [ih (rows + b) (cur + (b : ℤ)) (by omega) (by omega)]
      have hsplit : target - rows = b + (target - (rows + b)) := by omega
      rw [hsplit, List.range_add, List.map_append, List.map_map]
      congr 1
      apply List.map_congr_left
      intro a _
      simp only [Function.comp]
      push_cast
      ring
    · next h =>
      have hz : target - rows = 0 := by omega
      simp [hz]

/-- C1: for every generated (post-repair) row, the sum of the four
time-independent hour values plus `Physical_Activity_Hours_Per_Day`
equals 24 within the ±0.5 tolerance left by rounding the five values
independently to one decimal place after the sum-to-24 computation. -/
theorem generated_row_time_sum_within_half (r : TimeIn) :
    |hsum5 (repairTime r) - 24| ≤ 1/2 := by
  have hb := repairBranch_sum (clipRow r)
  have h1 := round1_close (repairBranch (clipRow r)).study
  have h2 := round1_close (repairBranch (clipRow r)).extra
  have h3 := round1_close (repairBranch (clipRow r)).sleep
  have h4 := round1_close (repairBranch (clipRow r)).social
  have h5 := round1_close (repairBranch (clipRow r)).physical
  rw [abs_le] at h1 h2 h3 h4 h5
  unfold hsum5 at hb
  unfold repairTime roundRow hsum5
  dsimp only
  rw [abs_le]
  constructor <;>
    linarith [h1.1, h1.2, h2.1, h2.2, h3.1, h3.2, h4.1, h4.2, h5.1, h5.2]

/-- C2: every generated row's stored `Stress_Level` equals the result of
evaluating the spec's ordered first-match-wins rule set on that row's
final repaired time values. -/
theorem stored_stress_matches_rule (r : TimeIn) :
    (genRow r).stress =
      stressSpec (genRow r).times.sleep (genRow r).times.study := by
  unfold genRow
  dsimp only
  exact stressCode_eq_stressSpec _ _

/-- C3: every generated (post-repair, post-rounding) row has all four
time-independent hour values and the residual
`Physical_Activity_Hours_Per_Day` non-negative. -/
theorem generated_row_times_nonneg (r : TimeIn) :
    0 ≤ (repairTime r).study ∧ 0 ≤ (repairTime r).extra ∧
    0 ≤ (repairTime r).sleep ∧ 0 ≤ (repairTime r).social ∧
    0 ≤ (repairTime r).physical := by
  obtain ⟨h1, h2, h3, h4, h5⟩ := repairBranch_nonneg r
  unfold repairTime roundRow
  dsimp only
  exact ⟨round1_nonneg h1, round1_nonneg h2, round1_nonneg h3,
         round1_nonneg h4, round1_nonneg h5⟩

/-- C4: for every categorical column, the repaired value is a member of
the seed's observed category set: the decode clamps the rounded code into
`[0, k-1]` before lookup, so lookup never goes out of range. -/
theorem categorical_value_in_seed_classes (classes : List String)
    (h : classes ≠ []) (x : ℚ) : catRepair classes x ∈ classes := by
  unfold catRepair clampInt
  dsimp only
  have hlen : 0 < classes.length := List.length_pos.mpr h
  have hub : min (max (roundHE x) 0) ((classes.length : ℤ) - 1) ≤
      (classes.length : ℤ) - 1 := min_le_right _ _
  have hlb : 0 ≤ min (max (roundHE x) 0) ((classes.length : ℤ) - 1) :=
    le_min (le_max_right _ _) (by omega)
  have hc : (min (max (roundHE x) 0) ((classes.length : ℤ) - 1)).toNat <
      classes.length := by omega
  rw [List.getD_eq_getElem _ _ hc]
  exact List.getElem_mem hc

/-- C4 witness: with the two-class seed category set of a gender column,
a wildly out-of-range sampled code still decodes to a seed category. -/
theorem categorical_value_in_seed_classes_witness :
    (["Female", "Male"] : List String) ≠ [] ∧
    catRepair ["Female", "Male"] 100 ∈ ["Female", "Male"] :=
  ⟨by decide, categorical_value_in_seed_classes _ (by decide) 100⟩

/-- C5: with a positive chunk size the generation loop terminates with
`rows_generated` exactly equal to the target, and no iteration's batch
(of size `min(chunk_size, target - rows_generated)`) overshoots the
target. -/
theorem row_count_exact (chunk target : ℕ) (hc : 0 < chunk) :
    runLoop chunk target hc 0 = target ∧
    ∀ rows, rows < target → rows + min chunk (target - rows) ≤ target := by
  constructor
  · exact runLoop_eq_target_aux chunk target hc target 0 (by omega)
      (Nat.zero_le _)
  · intro rows _
    have : min chunk (target - rows) ≤ target - rows := min_le_right _ _
    omega

/-- C5 witness: chunk size 2, target 5 (not a multiple of 2): the loop
still ends at exactly 5 rows. -/
theorem row_count_exact_witness :
    0 < 2 ∧ runLoop 2 5 (by decide) 0 = 5 :=
  ⟨by decide, (row_count_exact 2 5 (by decide)).1⟩

/-- C6: the identifiers assigned across the whole run are exactly
`maxSeedId + 1, maxSeedId + 2, ...`: a contiguous strictly increasing
sequence with no gaps or repeats, one identifier per generated row. -/
theorem ids_contiguous (chunk target : ℕ) (hc : 0 < chunk)
    (maxSeedId : ℤ) :
    genIds chunk target hc 0 (maxSeedId + 1) =
      (List.range target).map (fun i : ℕ => maxSeedId + 1 + (i : ℤ)) ∧
    (genIds chunk target hc 0 (maxSeedId + 1)).Pairwise (· < ·) := by
  have heq := genIds_eq_range_aux chunk target hc target 0 (maxSeedId + 1)
    (by omega) (Nat.zero_le _)
  rw [Nat.sub_zero] at heq
  refine ⟨heq, ?_⟩
  rw [heq, List.pairwise_map]
  have hr : (List.range target).Pairwise (· < ·) := List.pairwise_lt_range target
  exact hr.imp (fun hab => by omega)

/-- C6 witness: chunk 2, target 3, max seed identifier 1: the generated
identifiers are exactly `[2, 3, 4]`. -/
theorem ids_contiguous_witness :
    0 < 2 ∧ genIds 2 3 (by decide) 0 (1 + 1) = [2, 3, 4] := by
  refine ⟨by decide, ?_⟩
  rw [(ids_contiguous 2 3 (by decide) 1).1]
  decide

/-- C8: on an overflow row (clipped time-independent sum above 24) the
repair's rescale by `24 / sum_hours` makes the four values sum to exactly
24 and sets `Physical_Activity_Hours_Per_Day` to 0. -/
theorem overflow_rescale (r : TimeIn)
    (h : 24 < sumHours (clipRow r)) :
    hsum4 (repairBranch (clipRow r)) = 24 ∧
    (repairBranch (clipRow r)).physical = 0 := by
  have hs : sumHours (clipRow r) ≠ 0 := by
    intro h0
    rw [h0] at h
    norm_num at h
  unfold repairBranch hsum4
  dsimp only
  simp only [h, if_true]
  constructor
  · unfold sumHours at hs ⊢
    field_simp
    ring
  · trivial

/-- C8 witness: the spec's overflow example `Study=10, Extracurricular=10,
Sleep=6, Social=6` (sum 32): rescaled to sum exactly 24, physical
activity 0. -/
theorem overflow_rescale_witness :
    24 < sumHours (clipRow ⟨10, 10, 6, 6⟩) ∧
    hsum4 (repairBranch (clipRow ⟨10, 10, 6, 6⟩)) = 24 ∧
    (repairBranch (clipRow ⟨10, 10, 6, 6⟩)).physical = 0 :=
  ⟨by norm_num [sumHours, clipRow],
   overflow_rescale ⟨10, 10, 6, 6⟩ (by norm_num [sumHours, clipRow])⟩

/-- C9: with a target of 0 new rows the loop body never runs: no rows are
generated, no identifiers are assigned, and the output holds exactly the
seed's rows. -/
theorem zero_target_no_rows (chunk : ℕ) (hc : 0 < chunk) (cur : ℤ)
    (seedLen : ℕ) :
    runLoop chunk 0 hc 0 = 0 ∧ genIds chunk 0 hc 0 cur = [] ∧
    seedLen + runLoop chunk 0 hc 0 = seedLen := by
  have h1 : runLoop chunk 0 hc 0 = 0 := by
    rw [runLoop]
    simp
  have h2 : genIds chunk 0 hc 0 cur = [] := by
    rw [genIds]
    simp
  exact ⟨h1, h2, by omega⟩

/-- C9 witness: chunk 1, a seed of 7 rows, next identifier 5: zero target
generates nothing. -/
theorem zero_target_no_rows_witness :
    0 < 1 ∧ runLoop 1 0 (by decide) 0 = 0 ∧
    genIds 1 0 (by decide) 0 5 = [] ∧
    7 + runLoop 1 0 (by decide) 0 = 7 :=
  ⟨by decide, zero_target_no_rows 1 (by decide) 5 7⟩

/-- C10: the rescale divisor `sum_hours` is only used on rows where it
exceeds 24, hence is nonzero and the factor `24 / sum_hours` lies in
`(0, 1)`; a row whose clipped values sum to 0 never reaches the division
and instead gets residual `24 - 0 = 24`. -/
theorem overflow_divisor_safe (r : TimeIn) :
    (24 < sumHours (clipRow r) →
      sumHours (clipRow r) ≠ 0 ∧
      0 < 24 / sumHours (clipRow r) ∧
      24 / sumHours (clipRow r) < 1) ∧
    (sumHours (clipRow r) = 0 →
      (repairBranch (clipRow r)).physical = 24) := by
  constructor
  · intro h
    have hpos : 0 < sumHours (clipRow r) := by linarith
    refine ⟨ne_of_gt hpos, by positivity, ?_⟩
    rw [div_lt_one hpos]
    linarith
  · intro h0
    have hnot : ¬ 24 < sumHours (clipRow r) := by
      rw [h0]
      norm_num
    unfold repairBranch
    dsimp only
    simp only [hnot, if_false]
    rw [h0]
    norm_num

/-- C10 witness: the overflow example row has a positive divisor and a
factor in `(0, 1)`; the all-negative row clips to zero-sum and takes the
residual branch with physical activity 24. -/
theorem overflow_divisor_safe_witness :
    (24 < sumHours (clipRow ⟨10, 10, 6, 6⟩) ∧
      (sumHours (clipRow ⟨10, 10, 6, 6⟩) ≠ 0 ∧
       0 < 24 / sumHours (clipRow ⟨10, 10, 6, 6⟩) ∧
       24 / sumHours (clipRow ⟨10, 10, 6, 6⟩) < 1)) ∧
    (sumHours (clipRow ⟨-1, -2, 0, 0⟩) = 0 ∧
      (repairBranch (clipRow ⟨-1, -2, 0, 0⟩)).physical = 24) :=
  ⟨⟨by norm_num [sumHours, clipRow],
    (overflow_divisor_safe ⟨10, 10, 6, 6⟩).1 (by norm_num [sumHours, clipRow])⟩,
   ⟨by norm_num [sumHours, clipRow],
    (overflow_divisor_safe ⟨-1, -2, 0, 0⟩).2 (by norm_num [sumHours, clipRow])⟩⟩

/-- C7 counterexample: a seed schema with the identifier, the four time
columns and other columns but no `Stress_Level` does not fail at all (the
claim demands a fatal pre-loop abort); and a schema missing only
`Student_ID` fails after the seed was already written to the output (the
claim demands an abort before any output is written). -/
theorem schema_missing_column_claim_false :
    ("Stress_Level" ∉
      ["Student_ID", "Study_Hours_Per_Day", "Extracurricular_Hours_Per_Day",
       "Sleep_Hours_Per_Day", "Social_Hours_Per_Day", "Age", "Gender",
       "GPA"] ∧
     setup
      ["Student_ID", "Study_Hours_Per_Day", "Extracurricular_Hours_Per_Day",
       "Sleep_Hours_Per_Day", "Social_Hours_Per_Day", "Age", "Gender",
       "GPA"] = SetupOutcome.proceedsToLoop) ∧
    ("Student_ID" ∉
      ["Study_Hours_Per_Day", "Extracurricular_Hours_Per_Day",
       "Sleep_Hours_Per_Day", "Social_Hours_Per_Day", "Age", "Gender",
       "GPA", "Stress_Level"] ∧
     setup
      ["Study_Hours_Per_Day", "Extracurricular_Hours_Per_Day",
       "Sleep_Hours_Per_Day", "Social_Hours_Per_Day", "Age", "Gender",
       "GPA", "Stress_Level"] = SetupOutcome.errorAfterOutput) := by
  constructor
  · exact ⟨by decide, by decide⟩
  · exact ⟨by decide, by decide⟩

/-- C7 (amended): a missing time-independent column aborts the run before
any output is written; with those present, a missing identifier column
aborts before the generation loop but after the seed was written to the
output; a missing derived-label column causes no failure. -/
theorem schema_error_behavior (seedCols : List String) :
    ((∃ c ∈ timeVarsIndependent, c ∉ seedCols) →
      setup seedCols = SetupOutcome.errorBeforeOutput) ∧
    ((∀ c ∈ timeVarsIndependent, c ∈ seedCols) → "Student_ID" ∉ seedCols →
      setup seedCols = SetupOutcome.errorAfterOutput) ∧
    ((∀ c ∈ timeVarsIndependent, c ∈ seedCols) → "Student_ID" ∈ seedCols →
      setup seedCols = SetupOutcome.proceedsToLoop) := by
  have hA : (timeVarsIndependent.all fun c => seedCols.contains c) = true ↔
      ∀ c ∈ timeVarsIndependent, c ∈ seedCols := by
    simp
  have hB : seedCols.contains "Student_ID" = true ↔
      "Student_ID" ∈ seedCols := by
    simp
  refine ⟨?_, ?_, ?_⟩
  · intro h
    obtain ⟨c, hc, hnc⟩ := h
    have hcond : ¬ (timeVarsIndependent.all fun c => seedCols.contains c) = true := by
      rw [hA]
      intro hall
      exact hnc (hall c hc)
    unfold setup
    rw [if_pos hcond]
  · intro hall hid
    unfold setup
    rw [if_neg (not_not_intro (hA.mpr hall)),
        if_pos (fun hcont => hid (hB.mp hcont))]
  · intro hall hid
    unfold setup
    rw [if_neg (not_not_intro (hA.mpr hall)),
        if_neg (not_not_intro (hB.mpr hid))]

/-- C7 (amended) witness: concrete schemas exercising all three outcomes:
a seed missing `Sleep_Hours_Per_Day` errors before output; a seed missing
only `Student_ID` errors after the seed was written; a complete seed
without `Stress_Level` proceeds to the loop. -/
theorem schema_error_behavior_witness :
    ((∃ c ∈ timeVarsIndependent, c ∉ ["Student_ID", "GPA"]) ∧
      setup ["Student_ID", "GPA"] = SetupOutcome.errorBeforeOutput) ∧
    ((∀ c ∈ timeVarsIndependent,
        c ∈ ["Study_Hours_Per_Day", "Extracurricular_Hours_Per_Day",
             "Sleep_Hours_Per_Day", "Social_Hours_Per_Day"]) ∧
      "Student_ID" ∉
        ["Study_Hours_Per_Day", "Extracurricular_Hours_Per_Day",
         "Sleep_Hours_Per_Day", "Social_Hours_Per_Day"] ∧
      setup
        ["Study_Hours_Per_Day", "Extracurricular_Hours_Per_Day",
         "Sleep_Hours_Per_Day", "Social_Hours_Per_Day"] =
        SetupOutcome.errorAfterOutput) ∧
    ((∀ c ∈ timeVarsIndependent,
        c ∈ ["Student_ID", "Study_Hours_Per_Day",
             "Extracurricular_Hours_Per_Day", "Sleep_Hours_Per_Day",
             "Social_Hours_Per_Day"]) ∧
      "Student_ID" ∈
        ["Student_ID", "Study_Hours_Per_Day",
         "Extracurricular_Hours_Per_Day", "Sleep_Hours_Per_Day",
         "Social_Hours_Per_Day"] ∧
      setup
        ["Student_ID", "Study_Hours_Per_Day",
         "Extracurricular_Hours_Per_Day", "Sleep_Hours_Per_Day",
         "Social_Hours_Per_Day"] = SetupOutcome.proceedsToLoop) :=
  ⟨⟨by decide, (schema_error_behavior ["Student_ID", "GPA"]).1 (by decide)⟩,
   ⟨by decide, by decide,
    (schema_error_behavior _).2.1 (by decide) (by decide)⟩,
   ⟨by decide, by decide,
    (schema_error_behavior _).2.2 (by decide) (by decide)⟩⟩

end StudyBalance
